import Mathlib

/-!
Shallow embedding of the query-approval chat controller in
`src/frontend/src/components/ChatInterface.tsx` (duplicated, modulo imports
and presentation markup, in `src/unnamed/part_000`).

The controller keeps five pieces of mutable state (React `useState` hooks):
the message log, the input buffer, the busy flag `isLoading`, the pending
proposal `pendingQuery`, and the connection status.  Its three operations —
`checkConnection`, `handleSendMessage`, `handleExecuteQuery` — each perform
at most one network call; we model a network call's outcome as an explicit
oracle argument (the code cannot observe anything else about the network).
Message `id` and `timestamp` fields are presentation-only identifiers
(`Date.now()` plus randomness) and are not modelled; no claim concerns them.
-/

namespace ChatInterface

/-- JSON-like values, modelling the untyped `result: any` field of an
execute response.  `Array.isArray` holds exactly of the `arr` constructor. -/
inductive Json where
  | null : Json
  | bool (b : Bool) : Json
  | num (n : Int) : Json
  | str (s : String) : Json
  | arr (elems : List Json) : Json
  | obj (fields : List (String × Json)) : Json
  deriving Repr

/-- Message variant tags: `user` = UserQuestion, `bot` = SystemNotice,
`query` = GeneratedQuery, `result` = ExecutionResult ( the `type` union in
the `Message` interface of the source). -/
inductive MsgType where
  | user : MsgType
  | bot : MsgType
  | query : MsgType
  | result : MsgType
  deriving Repr, DecidableEq

/-- The `Message` interface of the source, minus the presentation-only
`id` and `timestamp` fields. -/
structure Message where
  type : MsgType
  content : String
  query : Option String := none
  result : Option Json := none
  answer : Option String := none
  deriving Repr

/-- The `pendingQuery` state: `{question: string, query: string} | null`. -/
structure PendingQuery where
  question : String
  query : String
  deriving Repr, DecidableEq

/-- The `connectionStatus` state: `'checking' | 'connected' | 'error'`. -/
inductive ConnStatus where
  | checking : ConnStatus
  | connected : ConnStatus
  | error : ConnStatus
  deriving Repr, DecidableEq

/-- The controller state: the five `useState` hooks that the protocol logic
reads or writes (`copiedStates`, a clipboard-UI affordance, is untouched by
the three operations and omitted). -/
structure State where
  messages : List Message
  input : String
  isLoading : Bool
  pendingQuery : Option PendingQuery
  connectionStatus : ConnStatus
  deriving Repr

/-- The `HealthResponse` interface. `collections_count?` is optional. -/
structure HealthResponse where
  status : String
  message : String
  mongodb_connected : Bool
  collections_count : Option Int := none
  deriving Repr, DecidableEq

/-- The `ChatResponse` interface (generate-query endpoint). -/
structure ChatResponse where
  success : Bool
  question : String
  query : String
  error : Option String := none
  deriving Repr, DecidableEq

/-- The `ExecuteResponse` interface (execute-query endpoint). -/
structure ExecuteResponse where
  success : Bool
  question : String
  query : String
  result : Json
  answer : String
  error : Option String := none
  deriving Repr

/-- Outcome of a `fetch` + `response.json()` round trip for the two POST
endpoints.  `transportError`: the fetch promise rejected or the body failed
to parse (the `catch` path); `httpError`: the response arrived with
`response.ok = false`, which the code turns into a thrown exception (also
the `catch` path); `ok`: a 2xx response with a parsed body. -/
inductive FetchResult (α : Type) where
  | transportError : FetchResult α
  | httpError (status : Nat) : FetchResult α
  | ok (data : α) : FetchResult α
  deriving Repr, DecidableEq

/-- Outcome of the health-check round trip.  `checkConnection` never
inspects `response.ok`, so the only failure path is a rejected fetch or an
unparsable body. -/
inductive HealthOutcome where
  | transportError : HealthOutcome
  | ok (data : HealthResponse) : HealthOutcome
  deriving Repr, DecidableEq

/-- A network request emitted by the controller, with the body it sent. -/
inductive Request where
  | health : Request
  | chat (question : String) : Request
  | executeQuery (question : String) (query : String) : Request
  deriving Repr, DecidableEq

/-- The `addMessage` helper: append one message at the end of the log
(`setMessages(prev => [...prev, newMessage])`). -/
def addMessage (s : State) (m : Message) : State :=
  { s with messages := s.messages ++ [m] }

/-- JS `String.prototype.trim()`: strip leading and trailing whitespace
characters. -/
def jsTrim (s : String) : String :=
  String.mk ((s.data.dropWhile Char.isWhitespace).reverse.dropWhile
    Char.isWhitespace).reverse

/-- JS `data.error || default`: `undefined` and the empty string are both
falsy, so either yields the default. -/
def jsOrElse (o : Option String) (dflt : String) : String :=
  match o with
  | none => dflt
  | some e => if e = "" then dflt else e

/-- Model of `JSON.stringify(v, null, 2)`, rendered as a structural rendering of the
value (the exact whitespace of the pretty-printer is presentation detail;
what the claims depend on is which branch of `handleExecuteQuery` builds the
display string). -/
def jsonStringify : Json → String
  | .null => "null"
  | .bool true => "true"
  | .bool false => "false"
  | .num n => toString n
  | .str s => "\"" ++ s ++ "\""
  | .arr elems => "[" ++ String.intercalate ", " (elems.attach.map
      (fun e => jsonStringify e.val)) ++ "]"
  | .obj fields => "\x7b" ++ String.intercalate ", " (fields.attach.map
      (fun f => "\"" ++ f.val.1 ++ "\": " ++ jsonStringify f.val.2)) ++ "\x7d"
  decreasing_by
    all_goals simp_wf
    · have h := List.sizeOf_lt_of_mem e.property
      omega
    · have h := List.sizeOf_lt_of_mem f.property
      have h2 : sizeOf f.val.2 < sizeOf f.val := by
        rcases f with ⟨⟨a, b⟩, hm⟩
        simp [Prod.mk.sizeOf_spec]
      omega

/-- The `resultDisplay` computation in `handleExecuteQuery`:
`Array.isArray(result)` and empty gives the literal text, every other value
is stringified. -/
def resultDisplay : Json → String
  | .arr [] => "No results found"
  | j => jsonStringify j

/-- The empty-store warning appended by `checkConnection`. -/
def emptyStoreWarning : Message :=
  { type := .bot
    content := "⚠️ Warning: Your database appears to be empty. Please add some data to start querying." }

/-- The database-side failure notice of `checkConnection` (unhealthy status
or `mongodb_connected:false`). -/
def dbErrorNotice : Message :=
  { type := .bot
    content := "❌ Connection Error: Unable to connect to the database. Please check your server configuration." }

/-- The transport-side failure notice of `checkConnection` (the `catch`
branch). -/
def serverErrorNotice : Message :=
  { type := .bot
    content := "❌ Server Error: Unable to connect to the API server. Please make sure the backend is running on port 5000." }

/-- The `checkConnection` operation: one GET to `/health/`; `connected` exactly on
`status === 'healthy' && mongodb_connected`, with the empty-store warning
appended when `collections_count === 0`; otherwise `error` plus one notice
whose text names the failure category. -/
def checkConnection (s : State) (o : HealthOutcome) : State × List Request :=
  match o with
  | .ok d =>
    if d.status = "healthy" ∧ d.mongodb_connected = true then
      let s1 := { s with connectionStatus := .connected }
      if d.collections_count = some 0 then
        (addMessage s1 emptyStoreWarning, [.health])
      else
        (s1, [.health])
    else
      (addMessage { s with connectionStatus := .error } dbErrorNotice, [.health])
  | .transportError =>
    (addMessage { s with connectionStatus := .error } serverErrorNotice, [.health])

/-- Content of the GeneratedQuery event (`'Generated MongoDB Query:...'`). -/
def generatedQueryContent (q : String) : String :=
  "Generated MongoDB Query:\n```python\n" ++ q ++ "\n```"

/-- The transport/HTTP failure notice of `handleSendMessage`. -/
def sendErrorNotice : Message :=
  { type := .bot
    content := "❌ Sorry, I encountered an error while processing your request. Please check if the server is running and try again." }

/-- The `handleSendMessage` operation (submitQuestion).  Guard: empty trimmed input, busy,
or not connected is a silent return before any state change.  Otherwise:
clear the input, raise the busy flag, append the UserQuestion event, POST
the trimmed question to `/api/chat/`; on `success:true` append the
GeneratedQuery event and set the proposal to the echoed
`{data.question, data.query}`; on `success:false` or a thrown error append
one notice; `finally` clears the busy flag. -/
def handleSendMessage (s : State) (o : FetchResult ChatResponse) :
    State × List Request :=
  if jsTrim s.input = "" ∨ s.isLoading = true ∨ s.connectionStatus ≠ .connected then
    (s, [])
  else
    let userMessage := jsTrim s.input
    let s1 := { s with input := "", isLoading := true }
    let s2 := addMessage s1 { type := .user, content := userMessage }
    let s3 :=
      match o with
      | .ok d =>
        if d.success then
          let s3a := addMessage s2
            { type := .query
              content := generatedQueryContent d.query
              query := some d.query }
          { s3a with pendingQuery := some ⟨d.question, d.query⟩ }
        else
          addMessage s2
            { type := .bot
              content := "❌ Error: " ++ jsOrElse d.error "Failed to generate query" }
      | .httpError _ => addMessage s2 sendErrorNotice
      | .transportError => addMessage s2 sendErrorNotice
    ({ s3 with isLoading := false }, [.chat userMessage])

/-- The cancellation notice of `handleExecuteQuery(false)`. -/
def cancelNotice : Message :=
  { type := .bot
    content := "❌ Query execution cancelled. Feel free to ask another question!" }

/-- The transport/HTTP failure notice of `handleExecuteQuery(true)`. -/
def execErrorNotice : Message :=
  { type := .bot
    content := "❌ Sorry, I encountered an error while executing the query. Please try again." }

/-- The `handleExecuteQuery` operation (resolveProposal).  Guard: only
`if (!pendingQuery) return` — the busy flag is NOT checked.  `approve=false`
appends the cancellation notice and clears the proposal with no network
call.  `approve=true` raises the busy flag and POSTs the proposal pair to
`/api/execute-query/`; on `success:true` appends the ExecutionResult event
and the answer notice, on `success:false` or a thrown error appends one
notice; `finally` clears the busy flag and the proposal. -/
def handleExecuteQuery (s : State) (approve : Bool)
    (o : FetchResult ExecuteResponse) : State × List Request :=
  match s.pendingQuery with
  | none => (s, [])
  | some p =>
    if approve = false then
      ({ addMessage s cancelNotice with pendingQuery := none }, [])
    else
      let s1 := { s with isLoading := true }
      let s2 :=
        match o with
        | .ok d =>
          if d.success then
            let s2a := addMessage s1
              { type := .result
                content := "Query Result:\n```json\n" ++ resultDisplay d.result ++ "\n```"
                result := some d.result }
            addMessage s2a
              { type := .bot
                content := "✅ " ++ d.answer
                answer := some d.answer }
          else
            addMessage s1
              { type := .bot
                content := "❌ Error executing query: " ++ jsOrElse d.error "Unknown error" }
        | .httpError _ => addMessage s1 execErrorNotice
        | .transportError => addMessage s1 execErrorNotice
      ({ s2 with isLoading := false, pendingQuery := none },
       [.executeQuery p.question p.query])

/-- The welcome message seeded into the log by the `useState` initialiser. -/
def welcomeMessage : Message :=
  { type := .bot
    content := "Welcome to your AI-powered MongoDB assistant! 🚀\n\nI can help you query your database using natural language. Just ask me anything about your data, and I\'ll generate the perfect MongoDB query for you.\n\nExamples:\n• \"Show me all users older than 25\"\n• \"Count orders by status\"\n• \"Find products with price greater than $100\"" }

/-- The initial controller state. -/
def initState : State :=
  { messages := [welcomeMessage]
    input := ""
    isLoading := false
    pendingQuery := none
    connectionStatus := .checking }

/-- One externally observable occurrence driving the controller: a health
probe resolving, a submit resolving, a proposal resolution resolving, or
the user editing the input buffer (`onChange` calls `setInput`). -/
inductive Action where
  | check (o : HealthOutcome) : Action
  | send (o : FetchResult ChatResponse) : Action
  | resolve (approve : Bool) (o : FetchResult ExecuteResponse) : Action
  | typeInput (text : String) : Action
  deriving Repr

/-- One controller step: dispatch an action to its handler, collecting the
requests it emitted. -/
def step (s : State) (a : Action) : State × List Request :=
  match a with
  | .check o => checkConnection s o
  | .send o => handleSendMessage s o
  | .resolve approve o => handleExecuteQuery s approve o
  | .typeInput t => ({ s with input := t }, [])

/-- Run a sequence of actions from a state, concatenating emitted requests
in order. -/
def run (s : State) (acts : List Action) : State × List Request :=
  match acts with
  | [] => (s, [])
  | a :: rest =>
    let sr := step s a
    let sr2 := run sr.1 rest
    (sr2.1, sr.2 ++ sr2.2)

/-! ### Failure taxonomy and invariants -/

/-- A failed round trip of the generate-query call: thrown transport error,
non-2xx status (turned into a throw by the code), or reported
`success:false`. -/
def chatFailure : FetchResult ChatResponse → Prop
  | .transportError => True
  | .httpError _ => True
  | .ok d => d.success = false

/-- A failed round trip of the execute-query call (same taxonomy). -/
def execFailure : FetchResult ExecuteResponse → Prop
  | .transportError => True
  | .httpError _ => True
  | .ok d => d.success = false

/-- A failed health probe: thrown transport error, or a parsed body whose
fields do not report a healthy, connected database. -/
def healthFailure : HealthOutcome → Prop
  | .transportError => True
  | .ok d => ¬(d.status = "healthy" ∧ d.mongodb_connected = true)

/-- Provenance invariant: whenever a proposal is pending, the log already
holds a GeneratedQuery event carrying the proposal's query string. -/
def pendingProvenance (s : State) : Prop :=
  ∀ p : PendingQuery, s.pendingQuery = some p →
    ∃ m ∈ s.messages, m.type = MsgType.query ∧ m.query = some p.query

/-! ### Append-only structure of the three operations -/

theorem checkConnection_append (s : State) (o : HealthOutcome) :
    ∃ t, (checkConnection s o).1.messages = s.messages ++ t ∧
      (checkConnection s o).1.pendingQuery = s.pendingQuery := by
  cases o with
  | transportError => exact ⟨[serverErrorNotice], rfl, rfl⟩
  | ok d =>
    simp only [checkConnection]
    split_ifs with h h0
    · exact ⟨[emptyStoreWarning], rfl, rfl⟩
    · exact ⟨[], by simp [addMessage], rfl⟩
    · exact ⟨[dbErrorNotice], rfl, rfl⟩

theorem handleSendMessage_append (s : State) (o : FetchResult ChatResponse) :
    ∃ t, (handleSendMessage s o).1.messages = s.messages ++ t := by
  simp only [handleSendMessage]
  split_ifs with h
  · exact ⟨[], by simp⟩
  · cases o with
    | transportError => exact ⟨_, by simp [addMessage]; rfl⟩
    | httpError n => exact ⟨_, by simp [addMessage]; rfl⟩
    | ok d =>
      by_cases hs : d.success = true
      · exact ⟨_, by simp [hs, addMessage]; rfl⟩
      · exact ⟨_, by simp [hs, addMessage]; rfl⟩

theorem handleExecuteQuery_append (s : State) (approve : Bool)
    (o : FetchResult ExecuteResponse) :
    ∃ t, (handleExecuteQuery s approve o).1.messages = s.messages ++ t := by
  rcases hp : s.pendingQuery with _ | p
  · exact ⟨[], by simp [handleExecuteQuery, hp]⟩
  · simp only [handleExecuteQuery, hp]
    split_ifs with ha
    · exact ⟨_, by simp [addMessage]; rfl⟩
    · cases o with
      | transportError => exact ⟨_, by simp [addMessage]; rfl⟩
      | httpError n => exact ⟨_, by simp [addMessage]; rfl⟩
      | ok d =>
        by_cases hs : d.success = true
        · exact ⟨_, by simp [hs, addMessage]; rfl⟩
        · exact ⟨_, by simp [hs, addMessage]; rfl⟩

theorem step_append (s : State) (a : Action) :
    ∃ t, (step s a).1.messages = s.messages ++ t := by
  cases a with
  | check o =>
    obtain ⟨t, ht, -⟩ := checkConnection_append s o
    exact ⟨t, ht⟩
  | send o => exact handleSendMessage_append s o
  | resolve approve o => exact handleExecuteQuery_append s approve o
  | typeInput t => exact ⟨[], by simp [step]⟩

theorem run_append (s : State) (acts : List Action) :
    ∃ t, (run s acts).1.messages = s.messages ++ t := by
  induction acts generalizing s with
  | nil => exact ⟨[], by simp [run]⟩
  | cons a rest ih =>
    obtain ⟨t1, ht1⟩ := step_append s a
    obtain ⟨t2, ht2⟩ := ih (step s a).1
    exact ⟨t1 ++ t2, by simp [run, ht2, ht1]⟩

/-! ### Provenance invariant -/

theorem pendingProvenance_init : pendingProvenance initState := by
  intro p hp
  simp [initState] at hp

theorem pendingProvenance_addMessages (s : State) (t : List Message)
    (h : pendingProvenance s) :
    pendingProvenance { s with messages := s.messages ++ t } := by
  intro p hp
  obtain ⟨m, hm, hq⟩ := h p hp
  exact ⟨m, List.mem_append_left t hm, hq⟩

theorem checkConnection_provenance (s : State) (o : HealthOutcome)
    (h : pendingProvenance s) : pendingProvenance (checkConnection s o).1 := by
  obtain ⟨t, ht, hpend⟩ := checkConnection_append s o
  intro p hp
  rw [hpend] at hp
  obtain ⟨m, hm, hq⟩ := h p hp
  exact ⟨m, ht ▸ List.mem_append_left t hm, hq⟩

theorem handleSendMessage_provenance (s : State) (o : FetchResult ChatResponse)
    (h : pendingProvenance s) : pendingProvenance (handleSendMessage s o).1 := by
  simp only [handleSendMessage]
  split_ifs with hg
  · exact h
  · cases o with
    | transportError =>
      intro p hp
      simp only [addMessage] at hp ⊢
      obtain ⟨m, hm, hq⟩ := h p hp
      exact ⟨m, by simp [hm], hq⟩
    | httpError n =>
      intro p hp
      simp only [addMessage] at hp ⊢
      obtain ⟨m, hm, hq⟩ := h p hp
      exact ⟨m, by simp [hm], hq⟩
    | ok d =>
      by_cases hs : d.success = true
      · simp only [hs, if_true]
        intro p hp
        simp only [addMessage] at hp
        rw [Option.some_inj] at hp
        subst hp
        refine ⟨{ type := .query, content := generatedQueryContent d.query,
                  query := some d.query }, ?_, rfl, rfl⟩
        simp [addMessage]
      · simp only [hs, if_false]
        intro p hp
        simp only [addMessage] at hp ⊢
        obtain ⟨m, hm, hq⟩ := h p hp
        exact ⟨m, by simp [hm], hq⟩

theorem handleExecuteQuery_provenance (s : State) (approve : Bool)
    (o : FetchResult ExecuteResponse) (h : pendingProvenance s) :
    pendingProvenance (handleExecuteQuery s approve o).1 := by
  rcases hp : s.pendingQuery with _ | p
  · simpa [handleExecuteQuery, hp] using h
  · simp only [handleExecuteQuery, hp]
    split_ifs with ha
    · intro p2 hp2
      simp at hp2
    · intro p2 hp2
      simp at hp2

theorem step_provenance (s : State) (a : Action) (h : pendingProvenance s) :
    pendingProvenance (step s a).1 := by
  cases a with
  | check o => exact checkConnection_provenance s o h
  | send o => exact handleSendMessage_provenance s o h
  | resolve approve o => exact handleExecuteQuery_provenance s approve o h
  | typeInput t =>
    intro p hp
    exact h p hp

theorem run_provenance (s : State) (acts : List Action)
    (h : pendingProvenance s) : pendingProvenance (run s acts).1 := by
  induction acts generalizing s with
  | nil => exact h
  | cons a rest ih => exact ih (step s a).1 (step_provenance s a h)

/-! ### Which state a step must be in to emit an execute request -/

theorem handleExecuteQuery_request (s : State) (approve : Bool)
    (o : FetchResult ExecuteResponse) (q qry : String)
    (h : Request.executeQuery q qry ∈ (handleExecuteQuery s approve o).2) :
    s.pendingQuery = some ⟨q, qry⟩ := by
  rcases hp : s.pendingQuery with _ | p
  · simp [handleExecuteQuery, hp] at h
  · simp only [handleExecuteQuery, hp] at h
    split_ifs at h with ha
    · simp at h
    · simp only [List.mem_singleton] at h
      cases h
      rfl

theorem step_exec_request (s : State) (a : Action) (q qry : String)
    (h : Request.executeQuery q qry ∈ (step s a).2) :
    s.pendingQuery = some ⟨q, qry⟩ := by
  cases a with
  | check o =>
    exfalso
    cases o with
    | transportError => simp [step, checkConnection] at h
    | ok d =>
      simp only [step, checkConnection] at h
      split_ifs at h <;> simp at h
  | send o =>
    exfalso
    simp only [step, handleSendMessage] at h
    split_ifs at h with hg
    · simp at h
    · cases o with
      | transportError => simp at h
      | httpError n => simp at h
      | ok d =>
        by_cases hs : d.success = true <;> simp [hs] at h
  | resolve approve o => exact handleExecuteQuery_request s approve o q qry h
  | typeInput t => simp [step] at h

/-- The single notice `checkConnection` appends on a failed probe, by
outcome: the database-side text on a degraded body, the transport-side text
on a thrown error. -/
def healthFailureNotice : HealthOutcome → Message
  | .ok _ => dbErrorNotice
  | .transportError => serverErrorNotice

/-- The single notice `handleSendMessage` appends on a failed generate
call, by outcome. -/
def chatFailureNotice : FetchResult ChatResponse → Message
  | .ok d => { type := .bot
               content := "❌ Error: " ++ jsOrElse d.error "Failed to generate query" }
  | _ => sendErrorNotice

/-- The single notice `handleExecuteQuery` appends on a failed execute
call, by outcome. -/
def execFailureNotice : FetchResult ExecuteResponse → Message
  | .ok d => { type := .bot
               content := "❌ Error executing query: " ++ jsOrElse d.error "Unknown error" }
  | _ => execErrorNotice

/-! ### Shared failure-path lemmas -/

theorem checkConnection_failure (s : State) (o : HealthOutcome)
    (hf : healthFailure o) :
    (checkConnection s o).1.messages = s.messages ++ [healthFailureNotice o] ∧
    (checkConnection s o).1.connectionStatus = ConnStatus.error ∧
    (checkConnection s o).1.isLoading = s.isLoading := by
  cases o with
  | transportError => exact ⟨rfl, rfl, rfl⟩
  | ok d =>
    have h : ¬(d.status = "healthy" ∧ d.mongodb_connected = true) := hf
    exact ⟨by simp [checkConnection, if_neg h, addMessage, healthFailureNotice],
           by simp [checkConnection, if_neg h, addMessage],
           by simp [checkConnection, if_neg h, addMessage]⟩

theorem handleSendMessage_failure (s : State) (o : FetchResult ChatResponse)
    (hg : ¬(jsTrim s.input = "" ∨ s.isLoading = true ∨
      s.connectionStatus ≠ ConnStatus.connected))
    (hf : chatFailure o) :
    (handleSendMessage s o).1.pendingQuery = s.pendingQuery ∧
    (handleSendMessage s o).1.messages =
      s.messages ++
        [{ type := MsgType.user, content := jsTrim s.input },
         chatFailureNotice o] ∧
    (handleSendMessage s o).1.isLoading = false := by
  simp only [handleSendMessage, if_neg hg]
  cases o with
  | transportError =>
    exact ⟨rfl, by simp [addMessage, chatFailureNotice], by simp⟩
  | httpError n =>
    exact ⟨rfl, by simp [addMessage, chatFailureNotice], by simp⟩
  | ok d =>
    have hs : d.success = false := hf
    simp only [hs]
    exact ⟨rfl, by simp [addMessage, chatFailureNotice], by simp⟩

theorem handleExecuteQuery_failure (s : State) (p : PendingQuery)
    (o : FetchResult ExecuteResponse) (hp : s.pendingQuery = some p)
    (hf : execFailure o) :
    (handleExecuteQuery s true o).1.messages = s.messages ++ [execFailureNotice o] ∧
    (handleExecuteQuery s true o).1.isLoading = false ∧
    (handleExecuteQuery s true o).1.pendingQuery = none := by
  simp only [handleExecuteQuery, hp]
  cases o with
  | transportError =>
    exact ⟨by simp [addMessage, execFailureNotice], by simp, by simp⟩
  | httpError n =>
    exact ⟨by simp [addMessage, execFailureNotice], by simp, by simp⟩
  | ok d =>
    have hs : d.success = false := hf
    simp only [hs]
    exact ⟨by simp [addMessage, execFailureNotice], by simp, by simp⟩

/-! ### Claims -/

/-- C2: whenever a proposal is pending, `handleExecuteQuery` (resolveProposal)
returns with `pendingQuery = none`, for both values of the approve flag and
every outcome of the execute call (ok with `success:true`, ok with
`success:false`, non-2xx, or transport error): the cancel branch clears it
directly and the approve branch clears it in `finally`. -/
theorem C2_resolveProposal_clears_pending (s : State) (p : PendingQuery)
    (approve : Bool) (o : FetchResult ExecuteResponse)
    (h : s.pendingQuery = some p) :
    (handleExecuteQuery s approve o).1.pendingQuery = none := by
  simp only [handleExecuteQuery, h]
  split_ifs with ha <;> simp

/-- Witness for C2 at a concrete pending state and a transport error. -/
theorem C2_witness :
    ({ initState with
        pendingQuery := some ⟨"count orders", "db.orders.find()"⟩ } : State).pendingQuery =
      some ⟨"count orders", "db.orders.find()"⟩ ∧
    (handleExecuteQuery
        { initState with pendingQuery := some ⟨"count orders", "db.orders.find()"⟩ }
        true FetchResult.transportError).1.pendingQuery = none :=
  ⟨rfl, C2_resolveProposal_clears_pending _ ⟨"count orders", "db.orders.find()"⟩
    true FetchResult.transportError rfl⟩

/-- A state whose busy flag is raised while a proposal is outstanding. -/
def busyProposalState : State :=
  { messages := []
    input := ""
    isLoading := true
    pendingQuery := some ⟨"count orders", "db.orders.find()"⟩
    connectionStatus := .connected }

/-- C3 counterexample: the claim says that while the busy flag is set,
resolveProposal (a cancel request included) is a silent no-op appending
zero events and leaving all state unchanged.  But `handleExecuteQuery`
guards only on `pendingQuery`, never on `isLoading`: from a busy state with
an outstanding proposal, a cancel request appends the cancellation notice
and clears the proposal. -/
theorem C3_counterexample :
    busyProposalState.isLoading = true ∧
    (handleExecuteQuery busyProposalState false FetchResult.transportError).1.pendingQuery =
      none ∧
    (handleExecuteQuery busyProposalState false FetchResult.transportError).1.messages =
      [cancelNotice] :=
  ⟨rfl, rfl, rfl⟩

/-- C3 (amended): submitQuestion is a silent no-op — no state change, no
log append, no network call — on empty-or-whitespace-only input, while
busy, or while not Connected; resolveProposal is a silent no-op exactly
when no proposal is pending.  The busy flag does not guard
resolveProposal. -/
theorem C3_precondition_noops (s : State) (o : FetchResult ChatResponse)
    (approve : Bool) (o2 : FetchResult ExecuteResponse) :
    (jsTrim s.input = "" ∨ s.isLoading = true ∨ s.connectionStatus ≠ ConnStatus.connected →
      handleSendMessage s o = (s, [])) ∧
    (s.pendingQuery = none → handleExecuteQuery s approve o2 = (s, [])) := by
  constructor
  · intro hg
    simp only [handleSendMessage, if_pos hg]
  · intro hp
    simp only [handleExecuteQuery, hp]

/-- Witness for C3 at the initial state (empty input, no proposal). -/
theorem C3_witness :
    (jsTrim initState.input = "" ∨ initState.isLoading = true ∨
      initState.connectionStatus ≠ ConnStatus.connected) ∧
    handleSendMessage initState FetchResult.transportError = (initState, []) ∧
    initState.pendingQuery = none ∧
    handleExecuteQuery initState true FetchResult.transportError = (initState, []) := by
  have h := C3_precondition_noops initState FetchResult.transportError true
    FetchResult.transportError
  exact ⟨Or.inl rfl, h.1 (Or.inl rfl), rfl, h.2 rfl⟩

/-- C8: the log is append-only — every single operation, and every finite
sequence of operations, only appends at the end: the prior log is a prefix
of the new one and no recorded event is mutated or deleted. -/
theorem C8_log_append_only (s : State) (a : Action) (acts : List Action) :
    (∃ t, (step s a).1.messages = s.messages ++ t) ∧
    (∃ t, (run s acts).1.messages = s.messages ++ t) :=
  ⟨step_append s a, run_append s acts⟩

/-- C10: a healthy, connected health body that omits `collections_count`
yields Connected with no empty-store warning (and no other append): the
warning fires only on a count strictly equal to zero. -/
theorem C10_absent_count_no_warning (s : State) (d : HealthResponse)
    (h1 : d.status = "healthy") (h2 : d.mongodb_connected = true)
    (h3 : d.collections_count = none) :
    checkConnection s (.ok d) =
      ({ s with connectionStatus := ConnStatus.connected }, [Request.health]) := by
  simp [checkConnection, h1, h2, h3]

/-- Witness for C10 at the initial state and a count-free healthy body. -/
theorem C10_witness :
    checkConnection initState
        (.ok { status := "healthy", message := "ok", mongodb_connected := true }) =
      ({ initState with connectionStatus := ConnStatus.connected }, [Request.health]) :=
  C10_absent_count_no_warning initState
    { status := "healthy", message := "ok", mongodb_connected := true } rfl rfl rfl

/-- C5: `checkConnection` sets Connected exactly when the body reports
status `"healthy"` with `mongodb_connected:true`; a zero collection count
additionally appends exactly the empty-store warning while a non-zero (or
absent) count appends nothing; any other reported body sets Error and
appends the database-side notice; a transport failure sets Error and
appends the transport-side notice; the two failure notices are
distinguishable. -/
theorem C5_health_check (s : State) (o : HealthOutcome) :
    ((checkConnection s o).1.connectionStatus = ConnStatus.connected ↔
      ∃ d, o = .ok d ∧ d.status = "healthy" ∧ d.mongodb_connected = true) ∧
    (∀ d, o = .ok d → d.status = "healthy" → d.mongodb_connected = true →
      (d.collections_count = some 0 →
        (checkConnection s o).1.messages = s.messages ++ [emptyStoreWarning]) ∧
      (d.collections_count ≠ some 0 →
        (checkConnection s o).1.messages = s.messages)) ∧
    (∀ d, o = .ok d → ¬(d.status = "healthy" ∧ d.mongodb_connected = true) →
      (checkConnection s o).1.connectionStatus = ConnStatus.error ∧
      (checkConnection s o).1.messages = s.messages ++ [dbErrorNotice]) ∧
    (o = .transportError →
      (checkConnection s o).1.connectionStatus = ConnStatus.error ∧
      (checkConnection s o).1.messages = s.messages ++ [serverErrorNotice]) ∧
    dbErrorNotice.content ≠ serverErrorNotice.content := by
  refine ⟨?_, ?_, ?_, ?_, by decide⟩
  · cases o with
    | transportError =>
      simp [checkConnection, addMessage]
    | ok d =>
      simp only [checkConnection]
      split_ifs with h h0
      · exact ⟨fun _ => ⟨d, rfl, h.1, h.2⟩, fun _ => rfl⟩
      · exact ⟨fun _ => ⟨d, rfl, h.1, h.2⟩, fun _ => rfl⟩
      · constructor
        · intro habs
          simp [addMessage] at habs
        · rintro ⟨d2, hd2, hst, hmc⟩
          cases hd2
          exact absurd ⟨hst, hmc⟩ h
  · rintro d rfl hst hmc
    have h : d.status = "healthy" ∧ d.mongodb_connected = true := ⟨hst, hmc⟩
    constructor
    · intro h0
      simp [checkConnection, if_pos h, h0, addMessage]
    · intro h0
      simp [checkConnection, if_pos h, if_neg h0]
  · rintro d rfl h
    exact ⟨by simp [checkConnection, if_neg h, addMessage],
           by simp [checkConnection, if_neg h, addMessage]⟩
  · rintro rfl
    exact ⟨rfl, rfl⟩

/-- Witness for C5: a healthy body with a zero count yields Connected plus
exactly the empty-store warning. -/
theorem C5_witness :
    (checkConnection initState
        (.ok { status := "healthy", message := "ok", mongodb_connected := true,
               collections_count := some 0 })).1.connectionStatus =
      ConnStatus.connected ∧
    (checkConnection initState
        (.ok { status := "healthy", message := "ok", mongodb_connected := true,
               collections_count := some 0 })).1.messages =
      initState.messages ++ [emptyStoreWarning] := by
  have h := C5_health_check initState
    (.ok { status := "healthy", message := "ok", mongodb_connected := true,
           collections_count := some 0 })
  exact ⟨h.1.mpr ⟨_, rfl, rfl, rfl⟩, (h.2.1 _ rfl rfl rfl).1 rfl⟩

/-- C6: on a reported execute success, exactly two events are appended in
order — an ExecutionResult carrying the raw result and displaying
`resultDisplay` of it, then a SystemNotice carrying the backend answer —
and the display is the literal `"No results found"` on an empty array and
the stringified structured value on everything else. -/
theorem C6_execution_success_events (s : State) (p : PendingQuery)
    (d : ExecuteResponse) (hp : s.pendingQuery = some p)
    (hs : d.success = true) :
    (handleExecuteQuery s true (.ok d)).1.messages =
      s.messages ++
        [{ type := MsgType.result
           content := "Query Result:\n```json\n" ++ resultDisplay d.result ++ "\n```"
           result := some d.result },
         { type := MsgType.bot, content := "✅ " ++ d.answer,
           answer := some d.answer }] ∧
    resultDisplay (Json.arr []) = "No results found" ∧
    (∀ j : Json, j ≠ Json.arr [] → resultDisplay j = jsonStringify j) := by
  refine ⟨?_, rfl, ?_⟩
  · simp [handleExecuteQuery, hp, hs, addMessage]
  · intro j hj
    match j with
    | .null => rfl
    | .bool b => rfl
    | .num n => rfl
    | .str s => rfl
    | .arr [] => exact absurd rfl hj
    | .arr (x :: xs) => rfl
    | .obj fs => rfl

/-- Witness for C6: executing on an empty-array result renders the
empty-sequence special case and the answer notice. -/
theorem C6_witness :
    (handleExecuteQuery
        { initState with pendingQuery := some ⟨"orders", "db.orders.find()"⟩ }
        true (.ok { success := true, question := "orders", query := "db.orders.find()",
                    result := Json.arr [], answer := "No orders found" })).1.messages =
      ({ initState with
          pendingQuery := some ⟨"orders", "db.orders.find()"⟩ } : State).messages ++
        [{ type := MsgType.result
           content := "Query Result:\n```json\n" ++ resultDisplay (Json.arr []) ++ "\n```"
           result := some (Json.arr []) },
         { type := MsgType.bot, content := "✅ " ++ "No orders found",
           answer := some "No orders found" }] ∧
    resultDisplay (Json.arr []) = "No results found" := by
  have h := C6_execution_success_events
    { initState with pendingQuery := some ⟨"orders", "db.orders.find()"⟩ }
    ⟨"orders", "db.orders.find()"⟩
    { success := true, question := "orders", query := "db.orders.find()",
      result := Json.arr [], answer := "No orders found" } rfl rfl
  exact ⟨h.1, h.2.1⟩

/-- A state with a proposal still outstanding while a fresh question sits
in the input buffer (the controller does not hard-block this). -/
def outstandingProposalState : State :=
  { messages := []
    input := "show users"
    isLoading := false
    pendingQuery := some ⟨"old question", "old query"⟩
    connectionStatus := .connected }

/-- C7 counterexample: the claim says a failed generation leaves
PendingProposal unset even when one was already outstanding.  But
`handleSendMessage` never writes `pendingQuery` on its failure paths: from
a state with an outstanding proposal and a non-empty input, a transport
error leaves the old proposal set, not unset. -/
theorem C7_counterexample :
    jsTrim outstandingProposalState.input ≠ "" ∧
    outstandingProposalState.isLoading = false ∧
    outstandingProposalState.connectionStatus = ConnStatus.connected ∧
    chatFailure FetchResult.transportError ∧
    (handleSendMessage outstandingProposalState
        FetchResult.transportError).1.pendingQuery =
      some ⟨"old question", "old query"⟩ :=
  ⟨by decide, rfl, rfl, trivial, by decide⟩

/-- C7 (amended): on a reported failure or transport error of the generate
call, submitQuestion appends the UserQuestion event plus exactly one
SystemNotice describing the error and does not write PendingProposal — so
the proposal stays unset when it was unset, and an already-outstanding
proposal (which the controller does not hard-block) survives unchanged. -/
theorem C7_generation_failure (s : State) (o : FetchResult ChatResponse)
    (hg : ¬(jsTrim s.input = "" ∨ s.isLoading = true ∨
      s.connectionStatus ≠ ConnStatus.connected))
    (hf : chatFailure o) :
    (handleSendMessage s o).1.pendingQuery = s.pendingQuery ∧
    (chatFailureNotice o).type = MsgType.bot ∧
    (handleSendMessage s o).1.messages =
      s.messages ++
        [{ type := MsgType.user, content := jsTrim s.input },
         chatFailureNotice o] := by
  obtain ⟨h1, h2, -⟩ := handleSendMessage_failure s o hg hf
  refine ⟨h1, ?_, h2⟩
  cases o <;> rfl

/-- The initial state after a successful health check, with `"hello"` typed
into the input buffer. -/
def connectedHelloState : State :=
  { initState with connectionStatus := ConnStatus.connected, input := "hello" }

/-- Witness for C7 at a connected idle state with input `"hello"` and a
transport error. -/
theorem C7_witness :
    (handleSendMessage connectedHelloState
        FetchResult.transportError).1.pendingQuery =
      connectedHelloState.pendingQuery ∧
    (handleSendMessage connectedHelloState
        FetchResult.transportError).1.messages =
      connectedHelloState.messages ++
        [{ type := MsgType.user, content := jsTrim "hello" },
         chatFailureNotice FetchResult.transportError] := by
  have h := C7_generation_failure connectedHelloState
    FetchResult.transportError (by decide) trivial
  exact ⟨h.1, h.2.2⟩

/-- C9: on generation success the proposal's question is the question
string echoed back by the generate endpoint (`data.question`), not the
locally submitted trimmed input; the UserQuestion event records the trimmed
input, and a later approval sends the echoed pair to the execute endpoint —
so whenever the echo differs from the submitted text, the executed question
differs from what the user typed and from the UserQuestion event. -/
theorem C9_echoed_question (s : State) (d : ChatResponse)
    (hg : ¬(jsTrim s.input = "" ∨ s.isLoading = true ∨
      s.connectionStatus ≠ ConnStatus.connected))
    (hs : d.success = true) :
    (handleSendMessage s (.ok d)).1.pendingQuery = some ⟨d.question, d.query⟩ ∧
    (handleSendMessage s (.ok d)).2 = [Request.chat (jsTrim s.input)] ∧
    (handleSendMessage s (.ok d)).1.messages =
      s.messages ++
        [{ type := MsgType.user, content := jsTrim s.input },
         { type := MsgType.query, content := generatedQueryContent d.query,
           query := some d.query }] ∧
    ∀ o2 : FetchResult ExecuteResponse,
      (handleExecuteQuery (handleSendMessage s (.ok d)).1 true o2).2 =
        [Request.executeQuery d.question d.query] := by
  have hpend :
      (handleSendMessage s (.ok d)).1.pendingQuery = some ⟨d.question, d.query⟩ := by
    simp [handleSendMessage, if_neg hg, hs]
  refine ⟨hpend, ?_, ?_, ?_⟩
  · simp [handleSendMessage, if_neg hg, hs]
  · simp [handleSendMessage, if_neg hg, hs, addMessage]
  · intro o2
    simp [handleExecuteQuery, hpend]

/-- The generate endpoint echoing back a question that differs from the
submitted one. -/
def echoedResponse : ChatResponse :=
  { success := true
    question := "count all orders"
    query := "db.orders.countDocuments()" }

/-- Witness for C9: submitting `"hello"` while the backend echoes
`"count all orders"` stores and later executes the echoed question, which
differs from the typed one. -/
theorem C9_witness :
    (handleSendMessage connectedHelloState (.ok echoedResponse)).1.pendingQuery =
      some ⟨"count all orders", "db.orders.countDocuments()"⟩ ∧
    (handleSendMessage connectedHelloState (.ok echoedResponse)).2 =
      [Request.chat "hello"] ∧
    "count all orders" ≠ jsTrim connectedHelloState.input := by
  have h := C9_echoed_question connectedHelloState echoedResponse (by decide) rfl
  refine ⟨h.1, ?_, by decide⟩
  have htrim : jsTrim connectedHelloState.input = "hello" := by decide
  rw [← htrim]
  exact h.2.1

/-- C4: for every invocation of the three operations whose network call
fails (transport error, non-2xx, or reported `success:false` — degraded
health body for the probe), exactly one SystemNotice is appended for that
call and the busy flag is not set when the operation returns.  The
handlers are total Lean functions on every outcome, which embeds the
absence of an outward throw: every failure path ends in the `catch`, or in
the reported-failure branch, never in a propagated exception.  The probe is
a one-shot call at session start, where the busy flag is still clear; it
never touches the flag, stated here as leaving it unchanged. -/
theorem C4_failure_handling (s : State) :
    (∀ o : HealthOutcome, healthFailure o →
      (checkConnection s o).1.messages = s.messages ++ [healthFailureNotice o] ∧
      (healthFailureNotice o).type = MsgType.bot ∧
      (checkConnection s o).1.isLoading = s.isLoading) ∧
    (∀ o : FetchResult ChatResponse, chatFailure o →
      ¬(jsTrim s.input = "" ∨ s.isLoading = true ∨
        s.connectionStatus ≠ ConnStatus.connected) →
      (handleSendMessage s o).1.messages =
        s.messages ++
          [{ type := MsgType.user, content := jsTrim s.input },
           chatFailureNotice o] ∧
      (chatFailureNotice o).type = MsgType.bot ∧
      (handleSendMessage s o).1.isLoading = false) ∧
    (∀ (o : FetchResult ExecuteResponse) (p : PendingQuery), execFailure o →
      s.pendingQuery = some p →
      (handleExecuteQuery s true o).1.messages =
        s.messages ++ [execFailureNotice o] ∧
      (execFailureNotice o).type = MsgType.bot ∧
      (handleExecuteQuery s true o).1.isLoading = false) := by
  refine ⟨?_, ?_, ?_⟩
  · intro o hf
    obtain ⟨h1, -, h3⟩ := checkConnection_failure s o hf
    refine ⟨h1, ?_, h3⟩
    cases o <;> rfl
  · intro o hf hg
    obtain ⟨-, h2, h3⟩ := handleSendMessage_failure s o hg hf
    refine ⟨h2, ?_, h3⟩
    cases o <;> rfl
  · intro o p hf hp
    obtain ⟨h1, h2, -⟩ := handleExecuteQuery_failure s p o hp hf
    refine ⟨h1, ?_, h2⟩
    cases o <;> rfl

/-- Witness for C4: a transport failure of each of the three endpoints from
concrete states, producing exactly the per-call notice. -/
theorem C4_witness :
    (checkConnection connectedHelloState HealthOutcome.transportError).1.messages =
      connectedHelloState.messages ++
        [healthFailureNotice HealthOutcome.transportError] ∧
    (handleSendMessage connectedHelloState FetchResult.transportError).1.messages =
      connectedHelloState.messages ++
        [{ type := MsgType.user, content := jsTrim connectedHelloState.input },
         chatFailureNotice FetchResult.transportError] ∧
    (handleExecuteQuery busyProposalState true FetchResult.transportError).1.messages =
      busyProposalState.messages ++
        [execFailureNotice FetchResult.transportError] ∧
    (handleExecuteQuery busyProposalState true FetchResult.transportError).1.isLoading =
      false := by
  have h1 := (C4_failure_handling connectedHelloState).1
    HealthOutcome.transportError trivial
  have h2 := (C4_failure_handling connectedHelloState).2.1
    FetchResult.transportError trivial (by decide)
  have h3 := (C4_failure_handling busyProposalState).2.2
    FetchResult.transportError ⟨"count orders", "db.orders.find()"⟩ trivial rfl
  exact ⟨h1.1, h2.1, h3.1, h3.2.2⟩

/-- C1: execution never occurs without a corresponding proposal.  In any
run from the initial state, a step that sends `{question, query}` to the
execute endpoint does so from a state whose PendingProposal is exactly that
pair, and the log at that point already holds a GeneratedQuery event
carrying that query string (the event appended when the proposal pair was
created); the step only appends, so any ExecutionResult event it produces
lands strictly after that GeneratedQuery event in the log. -/
theorem C1_execution_provenance (acts : List Action) (k : Nat)
    (hk : k < acts.length) (q qry : String)
    (hreq : Request.executeQuery q qry ∈
      (step (run initState (acts.take k)).1 (acts.get ⟨k, hk⟩)).2) :
    (run initState (acts.take k)).1.pendingQuery = some ⟨q, qry⟩ ∧
    ∃ j, ∃ hj : j < (run initState (acts.take k)).1.messages.length,
      ((run initState (acts.take k)).1.messages.get ⟨j, hj⟩).type = MsgType.query ∧
      ((run initState (acts.take k)).1.messages.get ⟨j, hj⟩).query = some qry ∧
      ∃ t, (step (run initState (acts.take k)).1 (acts.get ⟨k, hk⟩)).1.messages =
        (run initState (acts.take k)).1.messages ++ t := by
  have hpend : (run initState (acts.take k)).1.pendingQuery = some ⟨q, qry⟩ :=
    step_exec_request (run initState (acts.take k)).1 (acts.get ⟨k, hk⟩) q qry hreq
  have hprov : pendingProvenance (run initState (acts.take k)).1 :=
    run_provenance initState (acts.take k) pendingProvenance_init
  obtain ⟨m, hm, hq1, hq2⟩ := hprov ⟨q, qry⟩ hpend
  obtain ⟨⟨j, hj⟩, hget⟩ := List.mem_iff_get.mp hm
  exact ⟨hpend, j, hj, by rw [hget]; exact hq1, by rw [hget]; exact hq2,
    step_append (run initState (acts.take k)).1 (acts.get ⟨k, hk⟩)⟩

/-- A complete happy-path session: health probe, typing, generation, and
approved execution. -/
def demoActs : List Action :=
  [ .check (.ok { status := "healthy", message := "ok",
                  mongodb_connected := true, collections_count := some 3 })
  , .typeInput "show all users"
  , .send (.ok { success := true, question := "show all users",
                 query := "db.users.find()" })
  , .resolve true (.ok { success := true, question := "show all users",
                         query := "db.users.find()", result := Json.arr [],
                         answer := "No users found" }) ]

/-- Witness for C1 on the happy-path session: the approving step sends the
proposal pair, and the proposal at that point is exactly that pair. -/
theorem C1_witness :
    Request.executeQuery "show all users" "db.users.find()" ∈
      (step (run initState (demoActs.take 3)).1 (demoActs.get ⟨3, by decide⟩)).2 ∧
    (run initState (demoActs.take 3)).1.pendingQuery =
      some ⟨"show all users", "db.users.find()"⟩ := by
  have hreq : Request.executeQuery "show all users" "db.users.find()" ∈
      (step (run initState (demoActs.take 3)).1 (demoActs.get ⟨3, by decide⟩)).2 := by
    decide
  exact ⟨hreq,
    (C1_execution_provenance demoActs 3 (by decide) "show all users"
      "db.users.find()" hreq).1⟩

end ChatInterface
